import Mathlib

/-!
Shallow embedding of the reservation-and-reconciliation ledger of
`quant_trade_platform` (src/core/portfolio.py, src/live/liveengine.py).

Money amounts and prices are embedded as rationals (`ℚ`), share counts as
integers (`ℤ`).  Python dictionaries (insertion ordered) are embedded as
association lists `List (String × α)` with insertion-order-preserving
insert.  Methods that can raise are embedded as `Except Unit`; methods that
only log keep their state type.
-/

set_option maxRecDepth 4000

namespace QTP

/-- Python-style bankers rounding to the nearest integer (round half to
even), as performed by the built-in `round` on the ideal (rational) value. -/
def pyRound (q : ℚ) : ℤ :=
  if q - (⌊q⌋ : ℚ) = 1/2 then
    (if ⌊q⌋ % 2 = 0 then ⌊q⌋ else ⌊q⌋ + 1)
  else round q

/-- Python `round(x, 2)`: rounding to two decimal places, half to even. -/
def round2 (q : ℚ) : ℚ := (pyRound (q * 100) : ℚ) / 100

/-- Lookup in an insertion-ordered association list (Python `dict.get`). -/
def alist_lookup {α : Type} (l : List (String × α)) (k : String) : Option α :=
  match l with
  | [] => none
  | (k1, v) :: t => if k1 = k then some v else alist_lookup t k

/-- Python `d[k] = v`: replace in place when the key exists, else append. -/
def alist_insert {α : Type} (l : List (String × α)) (k : String) (v : α) :
    List (String × α) :=
  match l with
  | [] => [(k, v)]
  | (k1, v1) :: t =>
      if k1 = k then (k1, v) :: t else (k1, v1) :: alist_insert t k v

/-- Python `del d[k]` (removes the first binding of the key). -/
def alist_erase {α : Type} (l : List (String × α)) (k : String) :
    List (String × α) :=
  match l with
  | [] => []
  | (k1, v1) :: t => if k1 = k then t else (k1, v1) :: alist_erase t k

/-- Order direction (src/core/models.py enum, referenced throughout src). -/
inductive OrderDirection where
  | BUY
  | SELL
deriving DecidableEq, Repr

/-- Order type (src/core/models.py enum, referenced throughout src). -/
inductive OrderType where
  | MARKET
  | LIMIT
deriving DecidableEq, Repr

/-- Order status (src/core/models.py enum, referenced throughout src). -/
inductive OrderStatus where
  | PENDING
  | SUBMITTED
  | PARTIAL_FILLED
  | FILLED
  | CANCELLED
  | REJECTED
deriving DecidableEq, Repr

/-- Modelled from the spec: the `Position` record of src/core/models.py,
which is not under src/.  Fields follow spec section 3: symbol, total_volume,
available_volume, avg_price, cur_price, market_value, float_pnl, entry_date
(dates are embedded as day numbers). -/
structure Position where
  symbol : String
  total_volume : ℤ := 0
  available_volume : ℤ := 0
  avg_price : ℚ := 0
  cur_price : ℚ := 0
  market_value : ℚ := 0
  float_pnl : ℚ := 0
  entry_date : Option ℕ := none
deriving DecidableEq, Repr

/-- Modelled from the spec: `Position.update_positon` of src/core/models.py,
which is not under src/.  Its signature `(volume_delta, available_delta,
price)` is fixed by the call sites under src/ (`update_positon(volume, 0,
price)` for BUY settlement, `update_positon(-volume, -volume, price)` for
SELL settlement); the weighted-average cost-basis update on a positive
volume delta follows spec section 4.1, and the note of spec section 9 on
"settlement-cycle release of T+1-style holding restrictions" confirms that
available_volume moves only by the second argument. -/
def Position.update_positon (p : Position) (volume_delta available_delta : ℤ)
    (price : ℚ) : Position :=
  { p with
    total_volume := p.total_volume + volume_delta
    available_volume := p.available_volume + available_delta
    avg_price :=
      if 0 < volume_delta then
        ((p.total_volume : ℚ) * p.avg_price + (volume_delta : ℚ) * price) /
          ((p.total_volume : ℚ) + (volume_delta : ℚ))
      else p.avg_price }

/-- Modelled from the spec: the `Order` record of src/core/models.py, which
is not under src/.  Fields follow spec section 3. -/
structure Order where
  id : String
  order_id : Option String := none
  symbol : String
  direction : OrderDirection
  type : OrderType := OrderType.MARKET
  price : ℚ := 0
  volume : ℤ := 0
  filled_price : ℚ := 0
  filled_volume : ℤ := 0
  status : OrderStatus := OrderStatus.PENDING
deriving DecidableEq, Repr

/-- Modelled from the spec: `Order.update_status` of src/core/models.py,
which is not under src/.  Call sites under src/ pass a new status together
with filled volume and filled price (`update_status(order.status,
order.filled_volume, order.filled_price)`). -/
def Order.update_status (o : Order) (st : OrderStatus) (fv : ℤ) (fp : ℚ) :
    Order :=
  { o with status := st, filled_volume := fv, filled_price := fp }

/-- State of `PortfolioManager` (src/core/portfolio.py): cash fields, the
position map, the reservation journal `_orders`, and the fee parameters read
from configuration in `__init__`. -/
structure PortfolioManager where
  available_cash : ℚ
  total_cash : ℚ
  positions : List (String × Position) := []
  orders : List (String × Order) := []
  commission_rate : ℚ
  stamp_duty_rate : ℚ
  slippage_rate : ℚ := 0
  minimum_commission_fee : ℚ
deriving DecidableEq, Repr

namespace PortfolioManager

/-- The BUY-side cost locked by `freeze_order_locked_asset` (lines 109-113
of src/core/portfolio.py): trade amount plus the rounded commission floored
at the minimum commission fee (stamp duty 0 on BUY). -/
def freeze_total_cost (s : PortfolioManager) (o : Order) : ℚ :=
  let trade_amount := o.price * (o.volume : ℚ)
  let commission := trade_amount * s.commission_rate
  let total_fee := round2 (max commission s.minimum_commission_fee + 0)
  trade_amount + total_fee

/-- `PortfolioManager.freeze_order_locked_asset` (src/core/portfolio.py
lines 103-133).  BUY debits available_cash by the recomputed total cost;
SELL debits the available_volume of the position, raising `ValueError` (embedded
as `Except.error`) when the symbol has no position (the `KeyError` of
`self._positions[order.symbol]` is re-raised as `ValueError`).  On success a
copy of the order is stored in the reservation journal under its id,
overwriting any existing entry. -/
def freeze_order_locked_asset (s : PortfolioManager) (o : Order) :
    Except Unit PortfolioManager :=
  match o.direction with
  | OrderDirection.BUY =>
      let s1 := { s with available_cash := s.available_cash - freeze_total_cost s o }
      Except.ok { s1 with orders := alist_insert s1.orders o.id o }
  | OrderDirection.SELL =>
      match alist_lookup s.positions o.symbol with
      | none => Except.error ()
      | some p =>
          let p1 := { p with available_volume := p.available_volume - o.volume }
          let s1 := { s with positions := alist_insert s.positions o.symbol p1 }
          Except.ok { s1 with orders := alist_insert s1.orders o.id o }

/-- `PortfolioManager.unfreeze_order_locked_asset` (src/core/portfolio.py
lines 134-173).  BUY credits available_cash by the identically recomputed
total cost; SELL credits the available_volume of the position when the symbol
still has a position and only logs otherwise; finally the order id is
removed from the reservation journal when present (only logged when
absent).  No branch raises. -/
def unfreeze_order_locked_asset (s : PortfolioManager) (o : Order) :
    PortfolioManager :=
  let s1 :=
    match o.direction with
    | OrderDirection.BUY =>
        { s with available_cash := s.available_cash + freeze_total_cost s o }
    | OrderDirection.SELL =>
        match alist_lookup s.positions o.symbol with
        | none => s
        | some p =>
            let p1 := { p with available_volume := p.available_volume + o.volume }
            { s with positions := alist_insert s.positions o.symbol p1 }
  { s1 with orders := alist_erase s1.orders o.id }

/-- `PortfolioManager.check_trade` (src/core/portfolio.py lines 181-209). -/
def check_trade (s : PortfolioManager) (o : Order) : Bool :=
  let trade_amount := o.price * (o.volume : ℚ)
  let commission := trade_amount * s.commission_rate
  let stamp_duty :=
    match o.direction with
    | OrderDirection.BUY => 0
    | OrderDirection.SELL => trade_amount * s.stamp_duty_rate
  let total_fee := round2 (max commission s.minimum_commission_fee + stamp_duty)
  let total_cost := trade_amount + total_fee
  match o.direction with
  | OrderDirection.BUY => decide (s.available_cash ≥ total_cost)
  | OrderDirection.SELL =>
      match alist_lookup s.positions o.symbol with
      | none => false
      | some p => decide (p.available_volume ≥ o.volume)

/-- The settlement fee of `PortfolioManager.apply_trade` (src/core/portfolio.py
lines 215-223), computed on filled price and filled volume. -/
def settle_fee (s : PortfolioManager) (dir : OrderDirection)
    (filled_price : ℚ) (filled_volume : ℤ) : ℚ :=
  let trade_amount := filled_price * (filled_volume : ℚ)
  let commission := trade_amount * s.commission_rate
  let stamp_duty :=
    match dir with
    | OrderDirection.BUY => 0
    | OrderDirection.SELL => trade_amount * s.stamp_duty_rate
  round2 (max commission s.minimum_commission_fee + stamp_duty)

/-- `PortfolioManager._handle_buy` (src/core/portfolio.py lines 236-251).
`today` stands for `self.engine.current_date`.  Insufficient cash is only a
logged warning: the debit to both cash fields happens unconditionally. -/
def handle_buy (today : ℕ) (s : PortfolioManager) (symbol : String)
    (volume : ℤ) (price fee : ℚ) : PortfolioManager :=
  let total_cost := price * (volume : ℚ) + fee
  let s1 := { s with
    available_cash := s.available_cash - total_cost
    total_cash := s.total_cash - total_cost }
  let p :=
    match alist_lookup s1.positions symbol with
    | some p => p
    | none => { symbol := symbol : Position }
  let p1 := p.update_positon volume 0 price
  let p2 := { p1 with entry_date := some today }
  { s1 with positions := alist_insert s1.positions symbol p2 }

/-- `PortfolioManager._handle_sell` (src/core/portfolio.py lines 252-264).
`self._positions[symbol]` raises `KeyError` when the symbol has no position
(embedded as `Except.error`); otherwise cash is credited with the net
proceeds, the position volumes are decreased, and an emptied position is
deleted. -/
def handle_sell (s : PortfolioManager) (symbol : String) (volume : ℤ)
    (price fee : ℚ) : Except Unit PortfolioManager :=
  match alist_lookup s.positions symbol with
  | none => Except.error ()
  | some p =>
      let net_proceeds := price * (volume : ℚ) - fee
      let s1 := { s with
        available_cash := s.available_cash + net_proceeds
        total_cash := s.total_cash + net_proceeds }
      let p1 := p.update_positon (-volume) (-volume) price
      if p1.total_volume ≤ 0 then
        Except.ok { s1 with positions := alist_erase s1.positions symbol }
      else
        Except.ok { s1 with positions := alist_insert s1.positions symbol p1 }

/-- `PortfolioManager.apply_trade` (src/core/portfolio.py lines 210-235):
computes the settlement fee on filled quantities and dispatches on the
direction. -/
def apply_trade (today : ℕ) (s : PortfolioManager) (o : Order) :
    Except Unit PortfolioManager :=
  let fee := settle_fee s o.direction o.filled_price o.filled_volume
  match o.direction with
  | OrderDirection.BUY =>
      Except.ok (handle_buy today s o.symbol o.filled_volume o.filled_price fee)
  | OrderDirection.SELL =>
      handle_sell s o.symbol o.filled_volume o.filled_price fee

/-- `PortfolioManager.total_market_value` (src/core/portfolio.py lines
277-282). -/
def total_market_value (s : PortfolioManager) : ℚ :=
  (s.positions.map (fun kp => kp.2.market_value)).sum

/-- `PortfolioManager.total_equity` (src/core/portfolio.py lines 273-276). -/
def total_equity (s : PortfolioManager) : ℚ :=
  s.total_cash + total_market_value s

/-- `PortfolioManager.reset` (src/core/portfolio.py lines 283-287): zeroes
available_cash and clears the position map; nothing else is touched. -/
def reset (s : PortfolioManager) : PortfolioManager :=
  { s with available_cash := 0, positions := [] }

end PortfolioManager

/-- `PortfolioManager.SNAPSHOT_VERSION` (src/core/portfolio.py line 20). -/
def SNAPSHOT_VERSION : String := "0.3"

/-- One per-symbol entry of a well-formed snapshot document (the fields read
by `load_snapshot`, src/core/portfolio.py lines 442-450; dates are embedded
as day numbers). -/
structure SnapshotPosition where
  total_volume : ℤ
  available_volume : ℤ
  avg_price : ℚ
  cur_price : ℚ
  market_value : ℚ
  float_pnl : ℚ
  entry_date : ℕ
deriving DecidableEq, Repr

/-- A well-formed snapshot document as read by `load_snapshot`
(src/core/portfolio.py lines 432-451). -/
structure SnapshotData where
  version : String
  available_cash : ℚ
  total_cash : ℚ
  positions : List (String × SnapshotPosition)
deriving DecidableEq, Repr

/-- The per-symbol restoration performed by `PortfolioManager.load_snapshot`
(src/core/portfolio.py lines 442-451): a fresh `Position(symbol)` whose
fields are set from the document entry. -/
def snap_to_position (sym : String) (sp : SnapshotPosition) : Position :=
  { symbol := sym
    total_volume := sp.total_volume
    available_volume := sp.available_volume
    avg_price := sp.avg_price
    cur_price := sp.cur_price
    market_value := sp.market_value
    float_pnl := sp.float_pnl
    entry_date := some sp.entry_date }

namespace PortfolioManager

/-- The in-memory effect of `PortfolioManager.load_snapshot` once the
document has been parsed (src/core/portfolio.py lines 434-451): the version
check only logs (the returned flag records whether the mismatch was
logged), then available_cash and total_cash are overwritten, the position
map is cleared and repopulated entirely from the document. -/
def load_snapshot_data (s : PortfolioManager) (d : SnapshotData) :
    PortfolioManager × Bool :=
  let mismatch := d.version ≠ SNAPSHOT_VERSION
  let positions := d.positions.map (fun kp => (kp.1, snap_to_position kp.1 kp.2))
  ({ s with
      available_cash := d.available_cash
      total_cash := d.total_cash
      positions := positions },
    mismatch)

/-- The cash cost of the outstanding reservations recorded in the journal:
BUY reservations lock their frozen total cost, SELL reservations lock shares
rather than cash (spec section 3: the difference between total_cash and
available_cash is the summed locked cash cost of outstanding reservations). -/
def reserved_cash (s : PortfolioManager) : ℚ :=
  (s.orders.map (fun kp =>
    match kp.2.direction with
    | OrderDirection.BUY => freeze_total_cost s kp.2
    | OrderDirection.SELL => 0)).sum

/-- The allocation quotient of one pass of the rebalancing loop
(src/core/portfolio.py lines 324-327): the proportional money
allocation of the excess divided by (price × 100). -/
def alloc_quot (excess_mv total_mv market_value cur_price : ℚ) : ℚ :=
  excess_mv * (market_value / total_mv) / (cur_price * 100)

/-- The theoretical sell volume of one pass of the rebalancing loop
(src/core/portfolio.py line 327): `int(round(target_sell_mv /
(pos.cur_price * 100) + 0.5)) * 100`. -/
def target_volume (excess_mv total_mv market_value cur_price : ℚ) : ℤ :=
  pyRound (alloc_quot excess_mv total_mv market_value cur_price + 1/2) * 100

/-- The order volume decided by one pass of the rebalancing loop
(src/core/portfolio.py lines 327-335): the theoretical volume capped at the
available volume of the position and floored at 0; `none` when the result is
below the 100-share minimum lot, in which case the position is skipped. -/
def rebalance_sell_volume (excess_mv total_mv market_value cur_price : ℚ)
    (available_volume : ℤ) : Option ℤ :=
  let tv := target_volume excess_mv total_mv market_value cur_price
  let actual := max (min tv available_volume) 0
  if actual < 100 then none else some actual

end PortfolioManager

/-- State of `LiveEngine` (src/live/liveengine.py) as far as order
reconciliation is concerned: the local intent map `_orders`, the
venue-confirmed map `_trader_orders`, and the portfolio. -/
structure LiveEngine where
  orders : List (String × Order) := []
  trader_orders : List (String × Order) := []
  portfolio : PortfolioManager
deriving DecidableEq, Repr

namespace LiveEngine

/-- `LiveEngine._is_valid_order_status_transition` (src/live/liveengine.py
lines 395-404): membership of the new status in the transition table;
statuses missing from the table (FILLED, CANCELLED, REJECTED) have no
legal successor. -/
def is_valid_order_status_transition (old_status new_status : OrderStatus) :
    Bool :=
  match old_status with
  | OrderStatus.PENDING =>
      new_status = OrderStatus.SUBMITTED ∨ new_status = OrderStatus.REJECTED
  | OrderStatus.SUBMITTED =>
      new_status = OrderStatus.PARTIAL_FILLED ∨ new_status = OrderStatus.FILLED ∨
      new_status = OrderStatus.CANCELLED ∨ new_status = OrderStatus.REJECTED
  | OrderStatus.PARTIAL_FILLED =>
      new_status = OrderStatus.FILLED ∨ new_status = OrderStatus.CANCELLED
  | _ => false

/-- `LiveEngine._process_trader_filled_order` (src/live/liveengine.py lines
462-512).  All exceptions are caught and only logged inside this method, so
it never raises: a missing local order (`self._orders[order.id]`) aborts
before any mutation; for a SELL whose position is gone the attribute access
on `get_position(...)` fails after the unfreeze already happened; otherwise
`apply_trade` runs (its own `KeyError` is likewise swallowed, keeping the
unfrozen state).  `today` stands for `self._current_date`. -/
def process_trader_filled_order (today : ℕ) (s : LiveEngine) (order : Order) :
    LiveEngine :=
  match alist_lookup s.orders order.id with
  | none => s
  | some o =>
      let pm1 := s.portfolio.unfreeze_order_locked_asset o
      if o.direction = OrderDirection.SELL ∧
          (alist_lookup pm1.positions order.symbol).isNone then
        { s with portfolio := pm1 }
      else
        match pm1.apply_trade today order with
        | Except.ok pm2 => { s with portfolio := pm2 }
        | Except.error _ => { s with portfolio := pm1 }

/-- `LiveEngine.process_trader_order_callback` (src/live/liveengine.py lines
406-435) together with `_update_existing_trader_order` (lines 437-451) and
`_add_new_trader_order` (lines 453-460).  An id unknown to both maps is
dropped; a known confirmed order is updated only when the status transition
is legal, otherwise the callback is dropped with no mutation; an order known
only locally is copied into the confirmed map.  A surviving FILLED result is
settled via `process_trader_filled_order`; a surviving REJECTED result
unfreezes the local reservation, raising `ValueError` (embedded as
`Except.error`) when the local order is missing. -/
def process_trader_order_callback (today : ℕ) (s : LiveEngine)
    (order : Order) : Except Unit LiveEngine :=
  match alist_lookup s.trader_orders order.id with
  | some existing =>
      if is_valid_order_status_transition existing.status order.status then
        let existing1 := existing.update_status order.status
          order.filled_volume order.filled_price
        let s1 := { s with
          trader_orders := alist_insert s.trader_orders order.id existing1 }
        if order.status = OrderStatus.FILLED then
          Except.ok (process_trader_filled_order today s1 order)
        else if order.status = OrderStatus.REJECTED then
          match alist_lookup s1.orders order.id with
          | none => Except.error ()
          | some o =>
              Except.ok { s1 with
                portfolio := s1.portfolio.unfreeze_order_locked_asset o }
        else
          Except.ok s1
      else
        Except.ok s
  | none =>
      match alist_lookup s.orders order.id with
      | none => Except.ok s
      | some _ =>
          let s1 := { s with
            trader_orders := alist_insert s.trader_orders order.id order }
          if order.status = OrderStatus.FILLED then
            Except.ok (process_trader_filled_order today s1 order)
          else if order.status = OrderStatus.REJECTED then
            match alist_lookup s1.orders order.id with
            | none => Except.error ()
            | some o =>
                Except.ok { s1 with
                  portfolio := s1.portfolio.unfreeze_order_locked_asset o }
          else
            Except.ok s1

/-- Terminal statuses checked by `wait_orders_completion`
(src/live/liveengine.py lines 360-364). -/
def is_terminal_status (st : OrderStatus) : Bool :=
  st = OrderStatus.FILLED ∨ st = OrderStatus.CANCELLED ∨
  st = OrderStatus.REJECTED

/-- The `pending_ids` list built by `wait_orders_completion`
(src/live/liveengine.py lines 350-353): ids of local orders currently
SUBMITTED. -/
def pending_ids (s : LiveEngine) : List String :=
  (s.orders.filter (fun kp => kp.2.status = OrderStatus.SUBMITTED)).map
    (fun kp => kp.1)

/-- The done check of one pass of the polling loop of `wait_orders_completion`
(src/live/liveengine.py lines 355-369): every pending id has a confirmed
entry in a terminal status. -/
def wait_done (s : LiveEngine) (pending : List String) : Bool :=
  pending.all (fun id1 =>
    match alist_lookup s.trader_orders id1 with
    | some o => is_terminal_status o.status
    | none => false)

/-- The polling loop of `LiveEngine.wait_orders_completion`
(src/live/liveengine.py lines 354-378), counting the sleep iterations
performed from a given value of `timeout_cnt`.  No callback runs between
polls in this single-threaded embedding, so the engine state is constant
across iterations; the loop returns when `done` or once `timeout_cnt`
exceeds 60. -/
def wait_loop (s : LiveEngine) (pending : List String) (cnt : ℕ) : ℕ :=
  if wait_done s pending then 0
  else if 60 < cnt + 1 then 1
  else 1 + wait_loop s pending (cnt + 1)
termination_by 61 - cnt

/-- `LiveEngine.wait_orders_completion` (src/live/liveengine.py lines
343-378): the method reads `_orders` and `_trader_orders` and writes
nothing, so its embedding returns the unchanged state together with the
number of poll sleeps performed. -/
def wait_orders_completion (s : LiveEngine) : LiveEngine × ℕ :=
  (s, wait_loop s (pending_ids s) 0)

end LiveEngine

/-! Concrete states used to instantiate the theorems below. -/

/-- An example holding of 1000 shares of "AAA" at cost 10, fully available. -/
def examplePosition : Position :=
  { symbol := "AAA", total_volume := 1000, available_volume := 1000,
    avg_price := 10, cur_price := 10, market_value := 10000, float_pnl := 0,
    entry_date := none }

/-- An example ledger: 1000 cash, one holding, empty journal, zero
commission and stamp duty, minimum commission fee 5. -/
def examplePM : PortfolioManager :=
  { available_cash := 1000, total_cash := 1000,
    positions := [("AAA", examplePosition)], orders := [],
    commission_rate := 0, stamp_duty_rate := 0, slippage_rate := 0,
    minimum_commission_fee := 5 }

/-- An example BUY order: 10 shares of "AAA" at 10 (frozen cost 105). -/
def exampleBuyOrder : Order :=
  { id := "b1", symbol := "AAA", direction := OrderDirection.BUY,
    type := OrderType.LIMIT, price := 10, volume := 10, filled_price := 10,
    filled_volume := 10, status := OrderStatus.PENDING }

/-- An example SELL order: 200 shares of "AAA" at 10. -/
def exampleSellOrder : Order :=
  { id := "x1", symbol := "AAA", direction := OrderDirection.SELL,
    type := OrderType.LIMIT, price := 10, volume := 200, filled_price := 10,
    filled_volume := 200, status := OrderStatus.PENDING }

/-- The example ledger after `exampleBuyOrder` has been frozen once: its id
is already journalled and its cost of 105 already debited. -/
def examplePMFrozen : PortfolioManager :=
  { examplePM with
    available_cash := 895
    orders := [("b1", exampleBuyOrder)] }

/-- A FILLED BUY of 500 shares of "AAA" at 12, as confirmed by the venue. -/
def exampleFilledBuy : Order :=
  { id := "b2", symbol := "AAA", direction := OrderDirection.BUY,
    type := OrderType.LIMIT, price := 12, volume := 500, filled_price := 12,
    filled_volume := 500, status := OrderStatus.FILLED }

/-- A ledger whose whole cash is locked by one BUY reservation
(available_cash 0, total_cash 100, reservation cost 100): the cash
invariant holds with zero available cash. -/
def exampleFullyReservedPM : PortfolioManager :=
  { available_cash := 0, total_cash := 100, positions := [],
    orders := [("b3",
      { id := "b3", symbol := "BBB", direction := OrderDirection.BUY,
        type := OrderType.LIMIT, price := 1, volume := 100 })],
    commission_rate := 0, stamp_duty_rate := 0, slippage_rate := 0,
    minimum_commission_fee := 0 }

/-- An engine whose confirmed map holds a FILLED record of
`exampleFilledBuy` under id "b2", with a matching local order. -/
def exampleEngineFilled : LiveEngine :=
  { orders := [("b2", exampleFilledBuy)],
    trader_orders := [("b2", exampleFilledBuy)],
    portfolio := examplePM }

/-- A venue callback reporting the already-FILLED order "b2" as SUBMITTED
again — an illegal regression. -/
def exampleStaleCallback : Order :=
  { exampleFilledBuy with
    status := OrderStatus.SUBMITTED
    filled_volume := 0
    filled_price := 0 }

/-- An engine with one SUBMITTED local order whose confirmed entry is
already FILLED: `wait_orders_completion` is immediately done. -/
def exampleEngineDone : LiveEngine :=
  { orders := [("x1", { exampleSellOrder with status := OrderStatus.SUBMITTED })],
    trader_orders := [("x1", { exampleSellOrder with status := OrderStatus.FILLED })],
    portfolio := examplePM }

/-- An engine with one SUBMITTED local order and an empty confirmed map:
no confirmation ever arrives. -/
def exampleEngineNever : LiveEngine :=
  { orders := [("x1", { exampleSellOrder with status := OrderStatus.SUBMITTED })],
    trader_orders := [],
    portfolio := examplePM }

/-- An example snapshot document carrying the outdated version "0.2". -/
def exampleSnapshot : SnapshotData :=
  { version := "0.2", available_cash := 777, total_cash := 888,
    positions := [("CCC",
      { total_volume := 300, available_volume := 200, avg_price := 5,
        cur_price := 6, market_value := 1800, float_pnl := 300,
        entry_date := 7 })] }

/-! Helper lemmas about the association-list embedding of Python dicts. -/

/-- Looking up the key just inserted yields the inserted value. -/
theorem alist_lookup_insert_self {α : Type} (l : List (String × α))
    (k : String) (v : α) : alist_lookup (alist_insert l k v) k = some v := by
  induction l with
  | nil => simp [alist_insert, alist_lookup]
  | cons h t ih =>
      by_cases hk : h.1 = k
      · simp [alist_insert, alist_lookup, hk]
      · simp [alist_insert, alist_lookup, hk, ih]

/-- Lookup commutes with a key-preserving map over the list. -/
theorem alist_lookup_map {α β : Type} (g : String → α → β)
    (l : List (String × α)) (k : String) :
    alist_lookup (l.map (fun kp => (kp.1, g kp.1 kp.2))) k =
      (alist_lookup l k).map (g k) := by
  induction l with
  | nil => simp [alist_lookup]
  | cons h t ih =>
      by_cases hk : h.1 = k
      · subst hk; simp [alist_lookup]
      · simp [alist_lookup, hk, ih]

/-- C4: for every BUY order accepted by `check_trade`, freezing and then
immediately unfreezing leaves both available_cash and total_cash exactly at
their pre-freeze values — the frozen total cost is recomputed identically
on the unfreeze and credited back. -/
theorem buy_freeze_unfreeze_cash_roundtrip (s : PortfolioManager) (o : Order)
    (hd : o.direction = OrderDirection.BUY)
    (hc : s.check_trade o = true) :
    ∃ s1, s.freeze_order_locked_asset o = Except.ok s1 ∧
      (s1.unfreeze_order_locked_asset o).available_cash = s.available_cash ∧
      (s1.unfreeze_order_locked_asset o).total_cash = s.total_cash := by
  unfold PortfolioManager.freeze_order_locked_asset
  rw [hd]
  refine ⟨_, rfl, ?_, ?_⟩
  · simp [PortfolioManager.unfreeze_order_locked_asset, hd,
      PortfolioManager.freeze_total_cost]
  · simp [PortfolioManager.unfreeze_order_locked_asset, hd]

/-- C4 witness: the round trip on the example ledger and BUY order. -/
theorem buy_freeze_unfreeze_cash_roundtrip_witness :
    PortfolioManager.check_trade examplePM exampleBuyOrder = true ∧
    ∃ s1, examplePM.freeze_order_locked_asset exampleBuyOrder = Except.ok s1 ∧
      (s1.unfreeze_order_locked_asset exampleBuyOrder).available_cash =
        examplePM.available_cash ∧
      (s1.unfreeze_order_locked_asset exampleBuyOrder).total_cash =
        examplePM.total_cash :=
  ⟨by with_unfolding_all decide,
   buy_freeze_unfreeze_cash_roundtrip examplePM exampleBuyOrder rfl
    (by with_unfolding_all decide)⟩

/-- C5: for every SELL order against an existing position, freeze debits
the available_volume of the position by exactly order.volume, and unfreeze on
the same order restores it exactly. -/
theorem sell_freeze_unfreeze_volume_roundtrip (s : PortfolioManager)
    (o : Order) (p : Position)
    (hd : o.direction = OrderDirection.SELL)
    (hp : alist_lookup s.positions o.symbol = some p) :
    ∃ s1, s.freeze_order_locked_asset o = Except.ok s1 ∧
      (alist_lookup s1.positions o.symbol).map Position.available_volume =
        some (p.available_volume - o.volume) ∧
      (alist_lookup (s1.unfreeze_order_locked_asset o).positions
          o.symbol).map Position.available_volume =
        some p.available_volume := by
  unfold PortfolioManager.freeze_order_locked_asset
  rw [hd, hp]
  refine ⟨_, rfl, ?_, ?_⟩
  · simp [alist_lookup_insert_self]
  · simp [PortfolioManager.unfreeze_order_locked_asset, hd,
      alist_lookup_insert_self]

/-- C5 witness: the SELL freeze/unfreeze round trip on the example ledger
(1000 available shares, order volume 200). -/
theorem sell_freeze_unfreeze_volume_roundtrip_witness :
    ∃ s1, examplePM.freeze_order_locked_asset exampleSellOrder =
        Except.ok s1 ∧
      (alist_lookup s1.positions exampleSellOrder.symbol).map
          Position.available_volume =
        some (examplePosition.available_volume - exampleSellOrder.volume) ∧
      (alist_lookup (s1.unfreeze_order_locked_asset
          exampleSellOrder).positions exampleSellOrder.symbol).map
          Position.available_volume =
        some examplePosition.available_volume :=
  sell_freeze_unfreeze_volume_roundtrip examplePM exampleSellOrder
    examplePosition rfl rfl

/-- C1 counterexample: on the example ledger whose journal already holds
the id "b1", a second freeze of the same BUY order does not fail — it
succeeds and debits available_cash again (895 → 790, another 105). -/
theorem freeze_duplicate_id_counterexample :
    examplePMFrozen.freeze_order_locked_asset exampleBuyOrder =
      Except.ok { examplePMFrozen with available_cash := 790 } ∧
    (790 : ℚ) = examplePMFrozen.available_cash - 105 :=
  ⟨by with_unfolding_all rfl, by with_unfolding_all rfl⟩

/-- C1 amended: a freeze whose id is already journalled does not fail; for
a BUY it performs the debit again and overwrites the journal entry.  A SELL
freeze against a symbol with no position fails with a reservation error
(the embedded `ValueError`) and performs no debit. -/
theorem freeze_duplicate_debits_again_and_sell_missing_fails
    (s : PortfolioManager) (o o0 : Order) :
    (o.direction = OrderDirection.BUY →
      alist_lookup s.orders o.id = some o0 →
      s.freeze_order_locked_asset o = Except.ok
        { s with
          available_cash := s.available_cash - s.freeze_total_cost o
          orders := alist_insert s.orders o.id o }) ∧
    (o.direction = OrderDirection.SELL →
      alist_lookup s.positions o.symbol = none →
      s.freeze_order_locked_asset o = Except.error ()) := by
  constructor
  · intro hd _
    unfold PortfolioManager.freeze_order_locked_asset
    rw [hd]
  · intro hd hp
    unfold PortfolioManager.freeze_order_locked_asset
    rw [hd, hp]

/-- C1 (amended) witness: the duplicate BUY freeze debits again on the
example ledger; a SELL freeze of an unheld symbol fails. -/
theorem freeze_duplicate_and_sell_missing_witness :
    examplePMFrozen.freeze_order_locked_asset exampleBuyOrder = Except.ok
      { examplePMFrozen with
        available_cash := examplePMFrozen.available_cash -
          examplePMFrozen.freeze_total_cost exampleBuyOrder
        orders := alist_insert examplePMFrozen.orders exampleBuyOrder.id
          exampleBuyOrder } ∧
    { examplePM with positions := [] }.freeze_order_locked_asset
      exampleSellOrder = Except.error () :=
  ⟨(freeze_duplicate_debits_again_and_sell_missing_fails examplePMFrozen
      exampleBuyOrder exampleBuyOrder).1 rfl rfl,
   (freeze_duplicate_debits_again_and_sell_missing_fails
      { examplePM with positions := [] } exampleSellOrder exampleSellOrder).2
      rfl rfl⟩

/-- C9: a BUY settlement whose total cost exceeds available_cash is not
rejected by `apply_trade`: the warning is log-only and both cash fields are
debited unconditionally, driving available_cash negative. -/
theorem apply_trade_buy_overdraws (today : ℕ) (s : PortfolioManager)
    (o : Order)
    (hd : o.direction = OrderDirection.BUY)
    (hc : s.available_cash <
      o.filled_price * (o.filled_volume : ℚ) +
        s.settle_fee o.direction o.filled_price o.filled_volume) :
    ∃ t, s.apply_trade today o = Except.ok t ∧
      t.available_cash = s.available_cash -
        (o.filled_price * (o.filled_volume : ℚ) +
          s.settle_fee o.direction o.filled_price o.filled_volume) ∧
      t.total_cash = s.total_cash -
        (o.filled_price * (o.filled_volume : ℚ) +
          s.settle_fee o.direction o.filled_price o.filled_volume) ∧
      t.available_cash < 0 := by
  unfold PortfolioManager.apply_trade
  rw [hd] at hc ⊢
  refine ⟨_, rfl, ?_, ?_, ?_⟩
  · simp [PortfolioManager.handle_buy]
  · simp [PortfolioManager.handle_buy]
  · simp [PortfolioManager.handle_buy]
    linarith

/-- C9 witness: settling the 500-share fill at 12 against only 1000 cash
leaves both cash fields at -5005. -/
theorem apply_trade_buy_overdraws_witness :
    ∃ t, examplePM.apply_trade 0 exampleFilledBuy = Except.ok t ∧
      t.available_cash = examplePM.available_cash -
        (exampleFilledBuy.filled_price *
            (exampleFilledBuy.filled_volume : ℚ) +
          examplePM.settle_fee exampleFilledBuy.direction
            exampleFilledBuy.filled_price exampleFilledBuy.filled_volume) ∧
      t.total_cash = examplePM.total_cash -
        (exampleFilledBuy.filled_price *
            (exampleFilledBuy.filled_volume : ℚ) +
          examplePM.settle_fee exampleFilledBuy.direction
            exampleFilledBuy.filled_price exampleFilledBuy.filled_volume) ∧
      t.available_cash < 0 :=
  apply_trade_buy_overdraws 0 examplePM exampleFilledBuy rfl
    (by with_unfolding_all decide)

/-- C10 counterexample: a ledger whose whole cash is reserved (available 0,
total 100, one BUY reservation of cost 100) has total_cash > 0, yet after
`reset` the cash invariant total_cash = available_cash + reserved cash
still holds — the universal quantification of the claim over states with total_cash > 0
fails. -/
theorem reset_invariant_not_always_broken :
    0 < exampleFullyReservedPM.total_cash ∧
    exampleFullyReservedPM.total_cash =
      exampleFullyReservedPM.available_cash +
        exampleFullyReservedPM.reserved_cash ∧
    exampleFullyReservedPM.reset.total_cash =
      exampleFullyReservedPM.reset.available_cash +
        exampleFullyReservedPM.reset.reserved_cash := by
  with_unfolding_all decide

/-- C10 amended: `reset` zeroes available_cash and clears the position map
while leaving total_cash (and the reservation journal) untouched; whenever
the cash invariant held before the reset with available_cash > 0, it is
broken afterwards, and total_equity remains the stale total_cash rather
than 0. -/
theorem reset_stale_total_cash (s : PortfolioManager)
    (hinv : s.total_cash = s.available_cash + s.reserved_cash)
    (hav : 0 < s.available_cash) :
    s.reset.available_cash = 0 ∧
    s.reset.positions = [] ∧
    s.reset.total_cash = s.total_cash ∧
    s.reset.total_cash ≠ s.reset.available_cash + s.reset.reserved_cash ∧
    s.reset.total_equity = s.total_cash ∧
    (0 < s.total_cash → s.reset.total_equity ≠ 0) := by
  have hres : s.reset.reserved_cash = s.reserved_cash := rfl
  have heq : s.reset.total_equity = s.total_cash := by
    simp [PortfolioManager.total_equity, PortfolioManager.total_market_value,
      PortfolioManager.reset]
  refine ⟨rfl, rfl, rfl, ?_, heq, ?_⟩
  · rw [hres]
    show ¬ s.total_cash = 0 + s.reserved_cash
    intro hz
    rw [hinv] at hz
    linarith
  · intro ht
    rw [heq]
    linarith

/-- C2 counterexample: settling the FILLED BUY of 500 shares on the
position holding 1000 (all available) leaves available_volume at 1000 —
not increased by the filled volume to 1500 as the claim states (the bought
shares stay locked until the day-rollover release). -/
theorem apply_trade_buy_available_volume_counterexample :
    ((examplePM.apply_trade 0 exampleFilledBuy).toOption.bind
        (fun t => alist_lookup t.positions "AAA")).map
      Position.available_volume = some 1000 ∧
    (1000 : ℤ) ≠ examplePosition.available_volume +
      exampleFilledBuy.filled_volume :=
  ⟨by with_unfolding_all rfl, by decide⟩

/-- C2 amended: a FILLED BUY applied to a ledger holding the symbol updates
the average price of the position to the claimed weighted average
(V×A + filled_volume×filled_price)/(V + filled_volume), increases
total_volume by filled_volume, stamps entry_date with the current date, and
debits both cash fields by filled_price×filled_volume plus the fee on
filled quantities — but leaves available_volume unchanged (the T+1 lock is
only released by the day-rollover `unfreeze_all`). -/
theorem apply_trade_buy_settlement (today : ℕ) (s : PortfolioManager)
    (o : Order) (p : Position)
    (hd : o.direction = OrderDirection.BUY)
    (hst : o.status = OrderStatus.FILLED)
    (hp : alist_lookup s.positions o.symbol = some p)
    (hv : 0 < o.filled_volume) :
    ∃ t, s.apply_trade today o = Except.ok t ∧
      alist_lookup t.positions o.symbol = some
        { p with
          total_volume := p.total_volume + o.filled_volume
          avg_price := ((p.total_volume : ℚ) * p.avg_price +
              (o.filled_volume : ℚ) * o.filled_price) /
            ((p.total_volume : ℚ) + (o.filled_volume : ℚ))
          entry_date := some today } ∧
      t.available_cash = s.available_cash -
        (o.filled_price * (o.filled_volume : ℚ) +
          s.settle_fee o.direction o.filled_price o.filled_volume) ∧
      t.total_cash = s.total_cash -
        (o.filled_price * (o.filled_volume : ℚ) +
          s.settle_fee o.direction o.filled_price o.filled_volume) := by
  unfold PortfolioManager.apply_trade
  rw [hd]
  refine ⟨_, rfl, ?_, ?_, ?_⟩
  · simp [PortfolioManager.handle_buy, hp, Position.update_positon, hv,
      alist_lookup_insert_self]
  · simp [PortfolioManager.handle_buy]
  · simp [PortfolioManager.handle_buy]

/-- C2 (amended) witness: the numbers used by the spec itself — 1000 shares at 10, a
FILLED BUY of 500 at 12 — give average (1000×10 + 500×12)/1500 and total
1500, with both cash fields debited by 6005. -/
theorem apply_trade_buy_settlement_witness :
    ∃ t, examplePM.apply_trade 3 exampleFilledBuy = Except.ok t ∧
      alist_lookup t.positions exampleFilledBuy.symbol = some
        { examplePosition with
          total_volume := examplePosition.total_volume +
            exampleFilledBuy.filled_volume
          avg_price := ((examplePosition.total_volume : ℚ) *
                examplePosition.avg_price +
              (exampleFilledBuy.filled_volume : ℚ) *
                exampleFilledBuy.filled_price) /
            ((examplePosition.total_volume : ℚ) +
              (exampleFilledBuy.filled_volume : ℚ))
          entry_date := some 3 } ∧
      t.available_cash = examplePM.available_cash -
        (exampleFilledBuy.filled_price *
            (exampleFilledBuy.filled_volume : ℚ) +
          examplePM.settle_fee exampleFilledBuy.direction
            exampleFilledBuy.filled_price exampleFilledBuy.filled_volume) ∧
      t.total_cash = examplePM.total_cash -
        (exampleFilledBuy.filled_price *
            (exampleFilledBuy.filled_volume : ℚ) +
          examplePM.settle_fee exampleFilledBuy.direction
            exampleFilledBuy.filled_price exampleFilledBuy.filled_volume) :=
  apply_trade_buy_settlement 3 examplePM exampleFilledBuy examplePosition
    rfl rfl rfl (by decide)

/-- C3: a venue callback whose reported status is not a legal successor of
the current status of the confirmed record is dropped: the whole engine state —
confirmed map, local map and ledger — is returned unchanged; moreover
FILLED (like CANCELLED and REJECTED) has no legal successor at all. -/
theorem callback_invalid_transition_dropped (today : ℕ) (s : LiveEngine)
    (ex order : Order)
    (h1 : alist_lookup s.trader_orders order.id = some ex)
    (h2 : LiveEngine.is_valid_order_status_transition ex.status order.status
      = false) :
    LiveEngine.process_trader_order_callback today s order = Except.ok s ∧
    (∀ st, LiveEngine.is_valid_order_status_transition OrderStatus.FILLED st
      = false) := by
  constructor
  · unfold LiveEngine.process_trader_order_callback
    rw [h1]
    simp [h2]
  · intro st
    rfl

/-- C3 witness: feeding the FILLED confirmed order "b2" a stale SUBMITTED
update leaves the engine unchanged. -/
theorem callback_invalid_transition_witness :
    LiveEngine.process_trader_order_callback 0 exampleEngineFilled
      exampleStaleCallback = Except.ok exampleEngineFilled ∧
    LiveEngine.is_valid_order_status_transition OrderStatus.FILLED
      OrderStatus.SUBMITTED = false :=
  ⟨(callback_invalid_transition_dropped 0 exampleEngineFilled
      exampleFilledBuy exampleStaleCallback rfl rfl).1,
   (callback_invalid_transition_dropped 0 exampleEngineFilled
      exampleFilledBuy exampleStaleCallback rfl rfl).2 OrderStatus.SUBMITTED⟩

/-- C7: loading a well-formed snapshot document whose version differs from
SNAPSHOT_VERSION is not an error: the mismatch is logged (the flag) and the
in-memory cash fields and the entire position map are still replaced by the
contents of the document, independently of the previous state. -/
theorem load_snapshot_version_mismatch_replaces (s : PortfolioManager)
    (d : SnapshotData) (h : d.version ≠ SNAPSHOT_VERSION) :
    (s.load_snapshot_data d).2 = true ∧
    (s.load_snapshot_data d).1.available_cash = d.available_cash ∧
    (s.load_snapshot_data d).1.total_cash = d.total_cash ∧
    ∀ sym, alist_lookup (s.load_snapshot_data d).1.positions sym =
      (alist_lookup d.positions sym).map (fun sp => snap_to_position sym sp) := by
  refine ⟨?_, rfl, rfl, ?_⟩
  · simp [PortfolioManager.load_snapshot_data, h]
  · intro sym
    exact alist_lookup_map (fun k sp => snap_to_position k sp) d.positions sym

/-- C7 witness: loading the version-"0.2" document replaces cash and the
position map (the new map holds exactly the "CCC" entry of the document). -/
theorem load_snapshot_version_mismatch_witness :
    (examplePM.load_snapshot_data exampleSnapshot).2 = true ∧
    (examplePM.load_snapshot_data exampleSnapshot).1.available_cash =
      exampleSnapshot.available_cash ∧
    (examplePM.load_snapshot_data exampleSnapshot).1.total_cash =
      exampleSnapshot.total_cash ∧
    alist_lookup (examplePM.load_snapshot_data exampleSnapshot).1.positions
      "CCC" = (alist_lookup exampleSnapshot.positions "CCC").map
        (fun sp => snap_to_position "CCC" sp) :=
  have h := load_snapshot_version_mismatch_replaces examplePM
    exampleSnapshot (by decide)
  ⟨h.1, h.2.1, h.2.2.1, h.2.2.2 "CCC"⟩

/-- A done poll pass returns without sleeping, from any timeout count. -/
theorem wait_loop_of_done (s : LiveEngine) (pending : List String) (cnt : ℕ)
    (h : LiveEngine.wait_done s pending = true) :
    LiveEngine.wait_loop s pending cnt = 0 := by
  unfold LiveEngine.wait_loop
  simp [h]

/-- When no poll pass can succeed, the loop sleeps once per remaining
iteration and once more at the cap. -/
theorem wait_loop_of_not_done (s : LiveEngine) (pending : List String)
    (h : LiveEngine.wait_done s pending = false) :
    ∀ m cnt, cnt + m = 60 → LiveEngine.wait_loop s pending cnt = m + 1 := by
  intro m
  induction m with
  | zero =>
      intro cnt hc
      have hcnt : cnt = 60 := by omega
      subst hcnt
      unfold LiveEngine.wait_loop
      simp [h]
  | succ m ih =>
      intro cnt hc
      unfold LiveEngine.wait_loop
      rw [h]
      have hlt : ¬ 60 < cnt + 1 := by omega
      simp only [Bool.false_eq_true, if_false, if_neg hlt]
      rw [ih (cnt + 1) (by omega)]
      omega

/-- C8: `wait_orders_completion` terminates on every input and mutates
nothing (the returned state is the input state): when every locally
SUBMITTED order already has a terminal confirmed entry it returns after 0
poll sleeps, well before the cap; when confirmations never arrive for the
pending orders it returns after exactly 61 poll sleeps (the loop exits once
timeout_cnt exceeds 60). -/
theorem wait_orders_completion_terminates (s : LiveEngine) :
    (LiveEngine.wait_done s (LiveEngine.pending_ids s) = true →
      LiveEngine.wait_orders_completion s = (s, 0)) ∧
    (LiveEngine.pending_ids s ≠ [] →
      (∀ id1 ∈ LiveEngine.pending_ids s,
        alist_lookup s.trader_orders id1 = none) →
      LiveEngine.wait_orders_completion s = (s, 61)) := by
  constructor
  · intro h
    unfold LiveEngine.wait_orders_completion
    rw [wait_loop_of_done s _ 0 h]
  · intro hne hnone
    have hnd : LiveEngine.wait_done s (LiveEngine.pending_ids s) = false := by
      cases hp : LiveEngine.pending_ids s with
      | nil => exact absurd hp hne
      | cons a t =>
          have ha : alist_lookup s.trader_orders a = none :=
            hnone a (by rw [hp]; exact List.mem_cons_self a t)
          unfold LiveEngine.wait_done
          simp [ha]
    unfold LiveEngine.wait_orders_completion
    rw [wait_loop_of_not_done s _ hnd 60 0 (by omega)]

/-- C8 witness: with the only SUBMITTED order confirmed FILLED the wait
returns at once; with an empty confirmed map it returns after 61 sleeps;
neither run changes the engine state. -/
theorem wait_orders_completion_witness :
    LiveEngine.wait_orders_completion exampleEngineDone =
      (exampleEngineDone, 0) ∧
    LiveEngine.wait_orders_completion exampleEngineNever =
      (exampleEngineNever, 61) :=
  ⟨(wait_orders_completion_terminates exampleEngineDone).1 rfl,
   (wait_orders_completion_terminates exampleEngineNever).2 (by decide)
     (by decide)⟩

/-- Adding one half and rounding half-to-even equals the ceiling whenever
the input is not an exact integer. -/
theorem pyRound_add_half_of_not_int (q : ℚ) (h : (⌊q⌋ : ℚ) ≠ q) :
    pyRound (q + 1/2) = ⌈q⌉ := by
  unfold pyRound
  have hne : ¬ (q + 1/2 - (⌊q + 1/2⌋ : ℚ) = 1/2) := by
    intro he
    have hq : q = ((⌊q + 1/2⌋ : ℤ) : ℚ) := by linarith
    apply h
    rw [hq, Int.floor_intCast]
  rw [if_neg hne, round_eq]
  have h2 : q + 1/2 + 1/2 = q + 1 := by ring
  rw [h2, Int.floor_add_one]
  have hlt : (⌊q⌋ : ℚ) < q := lt_of_le_of_ne (Int.floor_le q) h
  symm
  rw [Int.ceil_eq_iff]
  constructor
  · push_cast
    linarith
  · push_cast
    have := Int.lt_floor_add_one q
    linarith

/-- Adding one half to an exact integer and rounding half-to-even keeps an
even integer and bumps an odd one. -/
theorem pyRound_int_add_half (n : ℤ) :
    pyRound ((n : ℚ) + 1/2) = if n % 2 = 0 then n else n + 1 := by
  unfold pyRound
  have hf : ⌊(n : ℚ) + 1/2⌋ = n := by
    rw [Int.floor_int_add]
    norm_num
  rw [hf]
  have ht : (n : ℚ) + 1/2 - (n : ℚ) = 1/2 := by ring
  rw [if_pos ht]

/-- C6 counterexample: with excess 1000, a single position of market value
2000 out of total 2000 and price 10, the allocation quotient is exactly 1;
the `int(round(q + 0.5)) * 100` of the code yields 200 while rounding up to the
next integer yields 100 — the ceiling description of the claim fails on exact
odd integer quotients. -/
theorem rebalance_rounding_counterexample :
    PortfolioManager.target_volume 1000 2000 2000 10 = 200 ∧
    ⌈PortfolioManager.alloc_quot 1000 2000 2000 10⌉ * 100 = 100 ∧
    (200 : ℤ) ≠ 100 := by
  refine ⟨by with_unfolding_all decide, by with_unfolding_all decide,
    by decide⟩

/-- C6 amended: the theoretical sell volume is
`pyRound(quotient + 1/2) × 100`, which equals the claimed
⌈quotient⌉ × 100 whenever the quotient is not an exact integer, and on an
exact integer quotient n equals n×100 for even n but (n+1)×100 for odd n;
the actual volume is min(theoretical, available) floored at 0, and no order
is generated below 100 shares. -/
theorem rebalance_volume_rounding
    (excess_mv total_mv market_value cur_price : ℚ)
    (available_volume : ℤ) :
    (((⌊PortfolioManager.alloc_quot excess_mv total_mv market_value
          cur_price⌋ : ℚ) ≠
        PortfolioManager.alloc_quot excess_mv total_mv market_value
          cur_price) →
      PortfolioManager.target_volume excess_mv total_mv market_value
          cur_price =
        ⌈PortfolioManager.alloc_quot excess_mv total_mv market_value
          cur_price⌉ * 100) ∧
    (∀ n : ℤ, PortfolioManager.alloc_quot excess_mv total_mv market_value
        cur_price = (n : ℚ) →
      PortfolioManager.target_volume excess_mv total_mv market_value
          cur_price =
        (if n % 2 = 0 then n else n + 1) * 100) ∧
    (∀ v, PortfolioManager.rebalance_sell_volume excess_mv total_mv
        market_value cur_price available_volume = some v →
      v = max (min (PortfolioManager.target_volume excess_mv total_mv
          market_value cur_price) available_volume) 0 ∧ 100 ≤ v) ∧
    (max (min (PortfolioManager.target_volume excess_mv total_mv
        market_value cur_price) available_volume) 0 < 100 →
      PortfolioManager.rebalance_sell_volume excess_mv total_mv market_value
        cur_price available_volume = none) := by
  refine ⟨?_, ?_, ?_, ?_⟩
  · intro h
    unfold PortfolioManager.target_volume
    rw [pyRound_add_half_of_not_int _ h]
  · intro n hn
    unfold PortfolioManager.target_volume
    rw [hn, pyRound_int_add_half]
  · intro v hv
    simp only [PortfolioManager.rebalance_sell_volume] at hv
    split_ifs at hv with h100
    have hva : _ = v := Option.some.inj hv
    subst hva
    exact ⟨rfl, not_lt.mp h100⟩
  · intro hlt
    simp only [PortfolioManager.rebalance_sell_volume]
    rw [if_pos hlt]

/-- C6 (amended) witness: quotient 10/7 (not an integer) gives the ceiling
200; quotient exactly 1 (odd) gives 200; with 150 available the order
volume is capped at 150; with only 50 available the position is skipped. -/
theorem rebalance_volume_rounding_witness :
    PortfolioManager.target_volume 1000 2000 2000 7 =
      ⌈PortfolioManager.alloc_quot 1000 2000 2000 7⌉ * 100 ∧
    PortfolioManager.target_volume 1000 2000 2000 10 =
      (if (1 : ℤ) % 2 = 0 then 1 else 1 + 1) * 100 ∧
    ((150 : ℤ) = max (min (PortfolioManager.target_volume 1000 2000 2000 7)
        150) 0 ∧ (100 : ℤ) ≤ 150) ∧
    PortfolioManager.rebalance_sell_volume 1000 2000 2000 7 50 = none :=
  ⟨(rebalance_volume_rounding 1000 2000 2000 7 150).1
      (by with_unfolding_all decide),
   (rebalance_volume_rounding 1000 2000 2000 10 0).2.1 1
      (by with_unfolding_all decide),
   (rebalance_volume_rounding 1000 2000 2000 7 150).2.2.1 150
      (by with_unfolding_all rfl),
   (rebalance_volume_rounding 1000 2000 2000 7 50).2.2.2
      (by with_unfolding_all decide)⟩

/-- C10 (amended) witness: on the example ledger with one frozen BUY (895
available, 1000 total, 105 reserved) the invariant holds before the reset
and is broken after it; total_equity stays 1000. -/
theorem reset_stale_total_cash_witness :
    examplePMFrozen.reset.available_cash = 0 ∧
    examplePMFrozen.reset.positions = [] ∧
    examplePMFrozen.reset.total_cash = examplePMFrozen.total_cash ∧
    examplePMFrozen.reset.total_cash ≠
      examplePMFrozen.reset.available_cash +
        examplePMFrozen.reset.reserved_cash ∧
    examplePMFrozen.reset.total_equity = examplePMFrozen.total_cash ∧
    (0 < examplePMFrozen.total_cash →
      examplePMFrozen.reset.total_equity ≠ 0) :=
  reset_stale_total_cash examplePMFrozen (by with_unfolding_all decide)
    (by with_unfolding_all decide)

end QTP
